import Mathlib

/-!
A shallow embedding of the offline mutation queue and reconciliation engine
of the task-sync repository.

Modelling conventions:
- ISO-8601 timestamps are modelled as `Nat` instants; a nullable or
  absent/empty timestamp is `Option Nat` with `none` standing for a value on
  which `_iso_to_dt` returns `None` (absent key or empty string). Timezone
  normalisation collapses in this model: all instants are already comparable.
- JSON payload dictionaries are modelled by the `Payload` structure: each
  field is `some v` when the key is present and `none` when absent
  (a key present with JSON null is not distinguished from an absent key).
- The SQLAlchemy session is modelled by a `List Task`; `db.query.filter.first`
  is a first-match lookup, mutation of a fetched row is replacement of the
  first matching row, `db.add` appends. Commit success or failure is an
  explicit `Bool` parameter: on failure the store is unchanged.
- The wall clock (`datetime.now`, `now_iso`) is an explicit `now : Nat`
  parameter.
-/

namespace TaskSync

/-- One row of the `tasks` table (src/models.py, class Task). `updated_at` is
kept optional because sync_service.py guards against a missing value. -/
structure Task where
  id : String
  title : String
  description : Option String
  completed : Bool
  created_at : Nat
  updated_at : Option Nat
  is_deleted : Bool
  sync_status : String
deriving DecidableEq, Repr

/-- The `data` dictionary of a queued mutation: the fields sync_service.py
reads from it. `none` = key absent; for `updated_at`, `none` also covers an
empty string (both make `_iso_to_dt` return `None`). -/
structure Payload where
  title : Option String
  description : Option String
  completed : Option Bool
  updated_at : Option Nat
deriving DecidableEq, Repr

/-- One entry of the local file-backed queue (src/services/local_queue.py):
the dictionary built by `LocalQueue.add`. `queued_at` is optional because
items loaded from the file may lack it. -/
structure QueueItem where
  task_id : String
  operation : String
  data : Payload
  retry_count : Nat
  queued_at : Option Nat
deriving DecidableEq, Repr

/-- `LocalQueue._save` (local_queue.py lines 43-50) with the queue lock
modelled. `self._lock` is a non-reentrant `threading.Lock` (line 23) and
`_save` opens with `with self._lock:` (line 45). `held` is whether the
calling thread already holds that lock; `none` models a call that blocks
forever on the acquire, `some ()` a completed write. -/
def LocalQueue.save (held : Bool) : Option Unit :=
  if held then none else some ()

/-- `LocalQueue.add` (local_queue.py lines 52-72) with the queue lock
modelled: the method acquires `self._lock` (line 70), appends the item with
`retry_count = 0` and `queued_at = now_iso()`, then calls `self._save()`
(line 72) while still holding the lock; `_save` re-acquires the same
non-reentrant lock, so the call never returns (`none`). `held` is the lock
state on entry. -/
def LocalQueue.add (held : Bool) (queue : List QueueItem) (task_id : String)
    (operation : String) (data : Payload) (now : Nat) : Option (List QueueItem) :=
  if held then none
  else
    match LocalQueue.save true with
    | none => none
    | some _ => some (queue ++ [{ task_id := task_id, operation := operation,
                                  data := data, retry_count := 0,
                                  queued_at := some now }])

/-- The possible states of the durable backing file read by
`LocalQueue._load` (local_queue.py lines 29-41). -/
inductive BackingStore where
  | missing
  | corrupt
  | parsedNonList
  | parsedList (items : List QueueItem)
deriving DecidableEq, Repr

/-- `LocalQueue._load`: the queue starts empty unless the file exists, reads,
parses, and parses to a list. -/
def LocalQueue.load (fs : BackingStore) : List QueueItem :=
  match fs with
  | .missing => []
  | .corrupt => []
  | .parsedNonList => []
  | .parsedList items => items

/-- The identity key used by `LocalQueue.remove_items` (local_queue.py
lines 79-93): (task_id, operation, data.updated_at, queued_at). -/
def itemKey (q : QueueItem) : String × String × Option Nat × Option Nat :=
  (q.task_id, q.operation, q.data.updated_at, q.queued_at)

/-- The in-memory filter computed by `LocalQueue.remove_items`
(local_queue.py lines 82-92): keeps only queue entries whose identity key is
not the key of any item in the removal list. This is the value assigned to
`self.queue` at line 92, before the call to `self._save()` at line 93; the
full method call never returns (see `LocalQueue.remove_items_run`). -/
def remove_items (queue : List QueueItem) (items : List QueueItem) : List QueueItem :=
  queue.filter (fun q => decide (itemKey q ∉ items.map itemKey))

/-- The full call `LocalQueue.remove_items` (local_queue.py lines 79-93)
with the queue lock modelled: the method acquires `self._lock` (line 81),
assigns the filtered queue, then calls `self._save()` (line 93) while still
holding the non-reentrant lock, which re-acquires it; the call therefore
never returns (`none`) and the filtered queue is never persisted. -/
def LocalQueue.remove_items_run (held : Bool) (queue : List QueueItem)
    (items : List QueueItem) : Option (List QueueItem) :=
  if held then none
  else
    match LocalQueue.save true with
    | none => none
    | some _ => some (remove_items queue items)

/-- `client_updated_at` (sync_service.py line 103):
`_iso_to_dt(data.get("updated_at")) or _iso_to_dt(queued_at)`. -/
def clientUpdatedAt (item : QueueItem) : Option Nat :=
  match item.data.updated_at with
  | some t => some t
  | none => item.queued_at

/-- `db.query(Task).filter(Task.id == task_id).first()`. -/
def findTask (db : List Task) (id : String) : Option Task :=
  db.find? (fun t => t.id == id)

/-- Mutation of a fetched row: replace the first row with the given id. -/
def updateById (db : List Task) (id : String) (t : Task) : List Task :=
  match db with
  | [] => []
  | x :: xs => if x.id == id then t :: xs else x :: updateById xs id t

/-- The title used when creating a task:
`data.get("title", "") or "Untitled"` (sync_service.py lines 134, 163);
both an absent key and an empty string fall back to "Untitled". -/
def createTitle (p : Payload) : String :=
  match p.title with
  | some s => if s = "" then "Untitled" else s
  | none => "Untitled"

/-- The Task constructed when a create, or an update for an unseen id,
materialises a new row (sync_service.py lines 132-141 and 161-170). -/
def newTaskFromPayload (task_id : String) (p : Payload) (ts : Nat) : Task :=
  { id := task_id
    title := createTitle p
    description := p.description
    completed := p.completed.getD false
    created_at := ts
    updated_at := some ts
    is_deleted := false
    sync_status := "synced" }

/-- In-place update of an existing row by a create or update operation
(sync_service.py lines 145-149 and 154-158): absent payload keys keep the
existing value. -/
def updateTaskFromPayload (ex : Task) (p : Payload) (ts : Nat) : Task :=
  { ex with
    title := p.title.getD ex.title
    description := match p.description with
      | some d => some d
      | none => ex.description
    completed := p.completed.getD ex.completed
    updated_at := some ts
    sync_status := "synced" }

/-- One conflict-report entry (sync_service.py lines 117-124). -/
structure ConflictEntry where
  task_id : String
  operation : String
  reason : String
  server_updated_at : Nat
  client_updated_at : Nat
  timestamp : Nat
deriving DecidableEq, Repr

/-- How the per-item loop body classifies one item: skipped as a conflict,
applied to the store, or put on the failed list for an unknown operation. -/
inductive Outcome where
  | conflictFound (c : ConflictEntry)
  | applied
  | unknownOp
deriving DecidableEq, Repr

/-- The guard of the conflict branch (sync_service.py line 116):
an existing record, both timestamps present, and the server timestamp
strictly greater than the client timestamp. -/
def conflictCond (db : List Task) (item : QueueItem) : Bool :=
  match findTask db item.task_id with
  | some ex =>
    match ex.updated_at, clientUpdatedAt item with
    | some su, some cu => decide (su > cu)
    | _, _ => false
  | none => false

/-- The operation dispatch of the loop body (sync_service.py lines 129-186),
reached when the conflict branch was not taken. -/
def applyOperation (now : Nat) (db : List Task) (item : QueueItem)
    (existing : Option Task) (cli : Option Nat) : List Task × Outcome :=
  if item.operation == "create" then
    match existing with
    | none => (db ++ [newTaskFromPayload item.task_id item.data (cli.getD now)], .applied)
    | some ex =>
      (updateById db item.task_id (updateTaskFromPayload ex item.data (cli.getD now)), .applied)
  else if item.operation == "update" then
    match existing with
    | some ex =>
      (updateById db item.task_id (updateTaskFromPayload ex item.data (cli.getD now)), .applied)
    | none => (db ++ [newTaskFromPayload item.task_id item.data (cli.getD now)], .applied)
  else if item.operation == "delete" then
    match existing with
    | some ex =>
      (updateById db item.task_id
        { ex with is_deleted := true, updated_at := some (cli.getD now),
                  sync_status := "synced" }, .applied)
    | none => (db, .applied)
  else
    (db, .unknownOp)

/-- The whole loop body of `process_sync_once` for one item
(sync_service.py lines 95-189): conflict check first, then dispatch. -/
def processItem (now : Nat) (db : List Task) (item : QueueItem) : List Task × Outcome :=
  match findTask db item.task_id with
  | some ex =>
    match ex.updated_at, clientUpdatedAt item with
    | some su, some cu =>
      if su > cu then
        (db, .conflictFound
          { task_id := item.task_id, operation := item.operation,
            reason := "server has newer data (LWW)",
            server_updated_at := su, client_updated_at := cu, timestamp := now })
      else applyOperation now db item (some ex) (clientUpdatedAt item)
    | _, _ => applyOperation now db item (some ex) (clientUpdatedAt item)
  | none => applyOperation now db item none (clientUpdatedAt item)

/-- The lists accumulated by the batch loop together with the evolving
record store. -/
structure RunAcc where
  db : List Task
  processed : List QueueItem
  failed : List QueueItem
  conflicts : List ConflictEntry
deriving Repr

/-- The batch loop of `process_sync_once`: items processed in order, each
appended to exactly one of processed (applied or conflict) and failed
(unknown operation). The evolving store is threaded through the items with
every mutation visible; under the autoflush=False sessions of
src/src/database.py this is faithful exactly when no item materialises a
new row mid-batch (in-place mutations of persistent rows are visible to
later queries through the identity map, but rows pending from `db.add` are
not). The session-accurate refinement for batches that insert rows is
`runBatchSession` below. -/
def runBatch (now : Nat) (db : List Task) : List QueueItem → RunAcc
  | [] => { db := db, processed := [], failed := [], conflicts := [] }
  | item :: rest =>
    let r := processItem now db item
    let acc := runBatch now r.1 rest
    match r.2 with
    | .conflictFound c =>
      { acc with processed := item :: acc.processed, conflicts := c :: acc.conflicts }
    | .applied => { acc with processed := item :: acc.processed }
    | .unknownOp => { acc with failed := item :: acc.failed }

/-- The summary dictionary returned by `process_sync_once`. -/
structure SyncSummary where
  synced_items : Nat
  failed_items : Nat
  conflicts : List ConflictEntry
  error : Option String
  remaining : Nat
deriving DecidableEq, Repr

/-- Summary plus the post-run queue and record store. -/
structure SyncResult where
  summary : SyncSummary
  queue : List QueueItem
  db : List Task
deriving Repr

/-- The values computed by `process_sync_once` (sync_service.py lines
74-220). `commitOk` models whether `db.commit()` at line 198 succeeds; on
failure the record store is unchanged and nothing is removed from the
queue. The empty-batch and commit-failure branches return as modelled; in
the commit-success branch the `db` field is the store as committed at line
198, while the `queue` and `summary` fields are the values lines 210-220
would produce — the running program never reaches them, because
`sync_queue.remove_items` at line 210 self-deadlocks (see
`process_sync_once_run`). -/
def process_sync_once (now : Nat) (batchSize : Nat) (commitOk : Bool)
    (queue : List QueueItem) (db : List Task) : SyncResult :=
  let batch := queue.take batchSize
  if batch.isEmpty then
    { summary := { synced_items := 0, failed_items := 0, conflicts := [],
                   error := none, remaining := queue.length },
      queue := queue, db := db }
  else
    let acc := runBatch now db batch
    if commitOk then
      let queue2 := remove_items queue acc.processed
      { summary := { synced_items := acc.processed.length,
                     failed_items := acc.failed.length,
                     conflicts := acc.conflicts, error := none,
                     remaining := queue2.length },
        queue := queue2, db := acc.db }
    else
      { summary := { synced_items := 0, failed_items := batch.length,
                     conflicts := acc.conflicts, error := some "commit error",
                     remaining := queue.length },
        queue := queue, db := db }

/-- `process_sync_once` as a call that may fail to return, with the queue
lock modelled: `none` means the call never returns. On the commit-success
path with a nonempty batch the code calls `sync_queue.remove_items` at line
210 with the lock free, and that call deadlocks in `_save`; the return at
line 215 is unreachable. The empty-batch return (line 89) and the
commit-failure return (lines 201-207) complete normally (`sync_queue.size`
acquires and releases the lock without calling `_save`). -/
def process_sync_once_run (now : Nat) (batchSize : Nat) (commitOk : Bool)
    (queue : List QueueItem) (db : List Task) : Option SyncResult :=
  let batch := queue.take batchSize
  if batch.isEmpty then
    some { summary := { synced_items := 0, failed_items := 0, conflicts := [],
                        error := none, remaining := queue.length },
           queue := queue, db := db }
  else
    let acc := runBatch now db batch
    if commitOk then
      match LocalQueue.remove_items_run false queue acc.processed with
      | none => none
      | some queue2 =>
        some { summary := { synced_items := acc.processed.length,
                            failed_items := acc.failed.length,
                            conflicts := acc.conflicts, error := none,
                            remaining := queue2.length },
               queue := queue2, db := acc.db }
    else
      some { summary := { synced_items := 0, failed_items := batch.length,
                          conflicts := acc.conflicts, error := some "commit error",
                          remaining := queue.length },
             queue := queue, db := db }

/-- A create payload with title "x" and client timestamp 10. -/
def sampPayload10 : Payload :=
  { title := some "x", description := none, completed := none, updated_at := some 10 }

/-- A create of task "A" at client timestamp 10. -/
def sampCreate10 : QueueItem :=
  { task_id := "A", operation := "create", data := sampPayload10,
    retry_count := 0, queued_at := some 10 }

/-- An item carrying an operation tag that is none of create, update, delete. -/
def sampUnknown : QueueItem :=
  { task_id := "C", operation := "noop", data := sampPayload10,
    retry_count := 0, queued_at := some 1 }

/-- A server record for task "A" with updated_at 30. -/
def sampServer30 : Task :=
  { id := "A", title := "srv", description := none, completed := false,
    created_at := 0, updated_at := some 30, is_deleted := false,
    sync_status := "pending" }

/-- A server record for task "A" with updated_at 10. -/
def sampServer10 : Task :=
  { id := "A", title := "srv", description := none, completed := false,
    created_at := 0, updated_at := some 10, is_deleted := false,
    sync_status := "pending" }

/-- A create whose payload title is the empty string, client timestamp 5. -/
def sampEmptyTitle : QueueItem :=
  { task_id := "B", operation := "create",
    data := { title := some "", description := none, completed := none, updated_at := some 5 },
    retry_count := 0, queued_at := some 5 }

/-- An item with no derivable client timestamp: no payload updated_at and no
queued_at. -/
def sampNoTimestamp : QueueItem :=
  { task_id := "A", operation := "create",
    data := { title := some "late", description := none, completed := none, updated_at := none },
    retry_count := 0, queued_at := none }

/-- An update of task "A" with a partial payload (title only) at timestamp 20. -/
def sampUpdate20 : QueueItem :=
  { task_id := "A", operation := "update",
    data := { title := some "b", description := none, completed := none, updated_at := some 20 },
    retry_count := 0, queued_at := some 20 }

theorem findTask_cons (x : Task) (xs : List Task) (id : String) :
    findTask (x :: xs) id = if x.id = id then some x else findTask xs id := by
  unfold findTask
  by_cases hx : x.id = id
  · rw [List.find?_cons_of_pos _ (by simpa using hx), if_pos hx]
  · rw [List.find?_cons_of_neg _ (by simpa using hx), if_neg hx]

theorem updateById_cons (x : Task) (xs : List Task) (id : String) (t : Task) :
    updateById (x :: xs) id t = if x.id = id then t :: xs else x :: updateById xs id t := by
  show (if x.id == id then t :: xs else x :: updateById xs id t) = _
  by_cases hx : x.id = id <;> simp [hx]

theorem findTask_id (db : List Task) (id : String) (ex : Task)
    (h : findTask db id = some ex) : ex.id = id := by
  have := List.find?_some h
  simpa using this

theorem findTask_append_of_none (db : List Task) (t : Task) (id : String)
    (h : findTask db id = none) (ht : t.id = id) :
    findTask (db ++ [t]) id = some t := by
  unfold findTask at *
  simp [List.find?_append, h, ht]

theorem findTask_updateById (db : List Task) (id : String) (t : Task)
    (h : (findTask db id).isSome) (ht : t.id = id) :
    findTask (updateById db id t) id = some t := by
  induction db with
  | nil => simp [findTask] at h
  | cons x xs ih =>
    rw [updateById_cons]
    by_cases hx : x.id = id
    · rw [if_pos hx, findTask_cons, if_pos ht]
    · rw [if_neg hx, findTask_cons, if_neg hx]
      exact ih (by rwa [findTask_cons, if_neg hx] at h)

theorem updateById_self (db : List Task) (id : String) (ex : Task)
    (h : findTask db id = some ex) : updateById db id ex = db := by
  induction db with
  | nil => simp [findTask] at h
  | cons x xs ih =>
    rw [findTask_cons] at h
    rw [updateById_cons]
    by_cases hx : x.id = id
    · rw [if_pos hx] at h
      rw [if_pos hx]
      injection h with hxe
      rw [hxe]
    · rw [if_neg hx] at h
      rw [if_neg hx, ih h]

/-! Helper lemmas about the conflict guard and the per-item loop body. -/

theorem conflictCond_spec (db : List Task) (item : QueueItem)
    (h : conflictCond db item = true) :
    ∃ ex su cu, findTask db item.task_id = some ex ∧ ex.updated_at = some su ∧
      clientUpdatedAt item = some cu ∧ cu < su := by
  unfold conflictCond at h
  split at h
  · rename_i ex heq
    split at h
    · rename_i su cu hsu hcu
      exact ⟨ex, su, cu, heq, hsu, hcu, by simpa using h⟩
    · simp at h
  · simp at h

theorem processItem_absent (now : Nat) (db : List Task) (item : QueueItem)
    (hf : findTask db item.task_id = none) :
    processItem now db item = applyOperation now db item none (clientUpdatedAt item) := by
  simp [processItem, hf]

theorem processItem_conflict (now : Nat) (db : List Task) (item : QueueItem)
    (ex : Task) (su cu : Nat)
    (hf : findTask db item.task_id = some ex) (hu : ex.updated_at = some su)
    (hc : clientUpdatedAt item = some cu) (hlt : cu < su) :
    processItem now db item = (db, .conflictFound
      { task_id := item.task_id, operation := item.operation,
        reason := "server has newer data (LWW)",
        server_updated_at := su, client_updated_at := cu, timestamp := now }) := by
  simp [processItem, hf, hu, hc, hlt]

theorem processItem_no_conflict (now : Nat) (db : List Task) (item : QueueItem)
    (ex : Task) (su cu : Nat)
    (hf : findTask db item.task_id = some ex) (hu : ex.updated_at = some su)
    (hc : clientUpdatedAt item = some cu) (hge : ¬ cu < su) :
    processItem now db item =
      applyOperation now db item (some ex) (clientUpdatedAt item) := by
  simp [processItem, hf, hu, hc, hge]

theorem processItem_server_no_ts (now : Nat) (db : List Task) (item : QueueItem)
    (ex : Task) (hf : findTask db item.task_id = some ex) (hu : ex.updated_at = none) :
    processItem now db item =
      applyOperation now db item (some ex) (clientUpdatedAt item) := by
  cases hc : clientUpdatedAt item <;> simp [processItem, hf, hu, hc]

theorem processItem_client_no_ts (now : Nat) (db : List Task) (item : QueueItem)
    (ex : Task) (hf : findTask db item.task_id = some ex)
    (hc : clientUpdatedAt item = none) :
    processItem now db item =
      applyOperation now db item (some ex) (clientUpdatedAt item) := by
  cases hu : ex.updated_at <;> simp [processItem, hf, hc, hu]

theorem applyOp_create_absent (now : Nat) (db : List Task) (item : QueueItem)
    (cli : Option Nat) (hop : item.operation = "create") :
    applyOperation now db item none cli =
      (db ++ [newTaskFromPayload item.task_id item.data (cli.getD now)], .applied) := by
  unfold applyOperation
  simp [hop]

theorem applyOp_create_existing (now : Nat) (db : List Task) (item : QueueItem)
    (ex : Task) (cli : Option Nat) (hop : item.operation = "create") :
    applyOperation now db item (some ex) cli =
      (updateById db item.task_id (updateTaskFromPayload ex item.data (cli.getD now)),
       .applied) := by
  unfold applyOperation
  simp [hop]

theorem applyOp_update_existing (now : Nat) (db : List Task) (item : QueueItem)
    (ex : Task) (cli : Option Nat) (hop : item.operation = "update") :
    applyOperation now db item (some ex) cli =
      (updateById db item.task_id (updateTaskFromPayload ex item.data (cli.getD now)),
       .applied) := by
  unfold applyOperation
  simp [hop]

theorem applyOp_update_absent (now : Nat) (db : List Task) (item : QueueItem)
    (cli : Option Nat) (hop : item.operation = "update") :
    applyOperation now db item none cli =
      (db ++ [newTaskFromPayload item.task_id item.data (cli.getD now)], .applied) := by
  unfold applyOperation
  simp [hop]

theorem applyOp_delete_existing (now : Nat) (db : List Task) (item : QueueItem)
    (ex : Task) (cli : Option Nat) (hop : item.operation = "delete") :
    applyOperation now db item (some ex) cli =
      (updateById db item.task_id
        { ex with is_deleted := true, updated_at := some (cli.getD now),
                  sync_status := "synced" }, .applied) := by
  unfold applyOperation
  simp [hop]

theorem applyOp_delete_absent (now : Nat) (db : List Task) (item : QueueItem)
    (cli : Option Nat) (hop : item.operation = "delete") :
    applyOperation now db item none cli = (db, .applied) := by
  unfold applyOperation
  simp [hop]

theorem applyOp_unknown (now : Nat) (db : List Task) (item : QueueItem)
    (existing : Option Task) (cli : Option Nat)
    (h1 : item.operation ≠ "create") (h2 : item.operation ≠ "update")
    (h3 : item.operation ≠ "delete") :
    applyOperation now db item existing cli = (db, .unknownOp) := by
  unfold applyOperation
  simp [h1, h2, h3]

theorem applyOp_applied (now : Nat) (db : List Task) (item : QueueItem)
    (existing : Option Task) (cli : Option Nat)
    (hop : item.operation = "create" ∨ item.operation = "update" ∨
           item.operation = "delete") :
    (applyOperation now db item existing cli).2 = Outcome.applied := by
  unfold applyOperation
  rcases hop with h | h | h <;> rcases existing with _ | ex <;> simp [h]

theorem applyOp_upsert_absent (now : Nat) (db : List Task) (item : QueueItem)
    (cli : Option Nat)
    (hop : item.operation = "create" ∨ item.operation = "update") :
    applyOperation now db item none cli =
      (db ++ [newTaskFromPayload item.task_id item.data (cli.getD now)], .applied) := by
  rcases hop with h | h
  · exact applyOp_create_absent now db item cli h
  · exact applyOp_update_absent now db item cli h

theorem applyOp_upsert_existing (now : Nat) (db : List Task) (item : QueueItem)
    (ex : Task) (cli : Option Nat)
    (hop : item.operation = "create" ∨ item.operation = "update") :
    applyOperation now db item (some ex) cli =
      (updateById db item.task_id (updateTaskFromPayload ex item.data (cli.getD now)),
       .applied) := by
  rcases hop with h | h
  · exact applyOp_create_existing now db item ex cli h
  · exact applyOp_update_existing now db item ex cli h

theorem processItem_unknown (now : Nat) (db : List Task) (item : QueueItem)
    (h1 : item.operation ≠ "create") (h2 : item.operation ≠ "update")
    (h3 : item.operation ≠ "delete") (hnc : conflictCond db item = false) :
    processItem now db item = (db, Outcome.unknownOp) := by
  cases hf : findTask db item.task_id with
  | none =>
    rw [processItem_absent now db item hf, applyOp_unknown now db item none _ h1 h2 h3]
  | some ex =>
    cases hu : ex.updated_at with
    | none =>
      rw [processItem_server_no_ts now db item ex hf hu,
          applyOp_unknown now db item _ _ h1 h2 h3]
    | some su =>
      cases hc : clientUpdatedAt item with
      | none =>
        rw [processItem_client_no_ts now db item ex hf hc,
            applyOp_unknown now db item _ _ h1 h2 h3]
      | some cu =>
        have hge : ¬ cu < su := by
          intro hlt
          have : conflictCond db item = true := by
            simp [conflictCond, hf, hu, hc, hlt]
          rw [this] at hnc
          cases hnc
        rw [processItem_no_conflict now db item ex su cu hf hu hc hge,
            applyOp_unknown now db item _ _ h1 h2 h3]

theorem runBatch_count (now : Nat) (db : List Task) (batch : List QueueItem) :
    (runBatch now db batch).processed.length + (runBatch now db batch).failed.length
      = batch.length := by
  induction batch generalizing db with
  | nil => simp [runBatch]
  | cons item rest ih =>
    have hih := ih (processItem now db item).1
    simp only [runBatch]
    cases h : (processItem now db item).2 <;> simp [h] <;> omega

theorem runBatch_all_conflicts (now : Nat) (db : List Task) (batch : List QueueItem)
    (h : ∀ item ∈ batch, conflictCond db item = true) :
    (runBatch now db batch).db = db ∧
    (runBatch now db batch).processed = batch ∧
    (runBatch now db batch).failed = [] ∧
    (runBatch now db batch).conflicts.length = batch.length := by
  induction batch with
  | nil => simp [runBatch]
  | cons item rest ih =>
    obtain ⟨ex, su, cu, hf, hu, hc, hlt⟩ := conflictCond_spec db item (h item (by simp))
    have hpi := processItem_conflict now db item ex su cu hf hu hc hlt
    have hrest := ih (fun it hit => h it (by simp [hit]))
    simp only [runBatch, hpi]
    simp [hrest.1, hrest.2.1, hrest.2.2.1, hrest.2.2.2]

theorem process_db_eq_runBatch (now limit : Nat) (queue : List QueueItem)
    (db : List Task) (hne : ¬ (queue.take limit).isEmpty) :
    (process_sync_once now limit true queue db).db =
      (runBatch now db (queue.take limit)).db := by
  simp [process_sync_once, hne]

theorem runBatch_db_cons (now : Nat) (db : List Task) (item : QueueItem)
    (rest : List QueueItem) :
    (runBatch now db (item :: rest)).db =
      (runBatch now (processItem now db item).1 rest).db := by
  simp only [runBatch]
  cases h : (processItem now db item).2 <;> simp [h]

theorem runBatch_db_nil (now : Nat) (db : List Task) :
    (runBatch now db []).db = db := rfl

theorem remove_items_run_deadlocks (held : Bool) (queue items : List QueueItem) :
    LocalQueue.remove_items_run held queue items = none := by
  cases held <;> rfl

theorem process_run_hangs (now limit : Nat) (queue : List QueueItem)
    (db : List Task) (hne : ¬ (queue.take limit).isEmpty) :
    process_sync_once_run now limit true queue db = none := by
  simp [process_sync_once_run, hne, remove_items_run_deadlocks]

/-! Helper lemmas about the session-accurate loop body. -/

theorem updateTaskFromPayload_idem (ex : Task) (p : Payload) (ts : Nat) :
    updateTaskFromPayload (updateTaskFromPayload ex p ts) p ts =
      updateTaskFromPayload ex p ts := by
  unfold updateTaskFromPayload
  cases p.title <;> cases p.description <;> cases p.completed <;> simp

theorem updateTaskFromPayload_newTask (id : String) (p : Payload) (ts : Nat)
    (ht : p.title ≠ some "") :
    updateTaskFromPayload (newTaskFromPayload id p ts) p ts =
      newTaskFromPayload id p ts := by
  unfold updateTaskFromPayload newTaskFromPayload createTitle
  cases hpt : p.title with
  | none => cases p.description <;> cases p.completed <;> simp
  | some s =>
    have hs : s ≠ "" := by
      intro h
      exact ht (by rw [hpt, h])
    cases p.description <;> cases p.completed <;> simp [hs]

theorem applyExisting_idempotent (now now2 : Nat) (db : List Task)
    (item : QueueItem) (ex : Task) (cu : Nat)
    (hc : clientUpdatedAt item = some cu)
    (hf : findTask db item.task_id = some ex)
    (hno : ex.updated_at = none ∨ ∃ su, ex.updated_at = some su ∧ ¬ cu < su) :
    (processItem now2
        (applyOperation now db item (some ex) (clientUpdatedAt item)).1 item).1
      = (applyOperation now db item (some ex) (clientUpdatedAt item)).1 := by
  have hexid : ex.id = item.task_id := findTask_id db item.task_id ex hf
  by_cases hup : item.operation = "create" ∨ item.operation = "update"
  · rw [hc, applyOp_upsert_existing now db item ex (some cu) hup]
    simp only [Option.getD_some]
    have hf2 : findTask (updateById db item.task_id (updateTaskFromPayload ex item.data cu))
        item.task_id = some (updateTaskFromPayload ex item.data cu) :=
      findTask_updateById db item.task_id _ (by rw [hf]; rfl) hexid
    rw [processItem_no_conflict now2 _ item _ cu cu hf2 rfl hc (lt_irrefl cu), hc]
    rw [applyOp_upsert_existing now2 _ item _ (some cu) hup]
    simp only [Option.getD_some]
    have hself := updateById_self _ item.task_id _ hf2
    simp [updateTaskFromPayload_idem, hself]
  · by_cases hdel : item.operation = "delete"
    · rw [hc, applyOp_delete_existing now db item ex (some cu) hdel]
      simp only [Option.getD_some]
      have hf2 : findTask
          (updateById db item.task_id
            { ex with is_deleted := true, updated_at := some cu,
                      sync_status := "synced" }) item.task_id =
          some ({ ex with is_deleted := true, updated_at := some cu,
                          sync_status := "synced" } : Task) :=
        findTask_updateById db item.task_id _ (by rw [hf]; rfl) hexid
      rw [processItem_no_conflict now2 _ item _ cu cu hf2 rfl hc (lt_irrefl cu), hc]
      rw [applyOp_delete_existing now2 _ item _ (some cu) hdel]
      simp only [Option.getD_some]
      have hself := updateById_self _ item.task_id _ hf2
      simp [hself]
    · push_neg at hup
      rw [applyOp_unknown now db item (some ex) (clientUpdatedAt item) hup.1 hup.2 hdel]
      simp only []
      rcases hno with hu | ⟨su, hu, hge⟩
      · rw [processItem_server_no_ts now2 db item ex hf hu,
            applyOp_unknown now2 db item (some ex) (clientUpdatedAt item) hup.1 hup.2 hdel]
      · rw [processItem_no_conflict now2 db item ex su cu hf hu hc hge,
            applyOp_unknown now2 db item (some ex) (clientUpdatedAt item) hup.1 hup.2 hdel]

theorem processItem_idempotent (now now2 : Nat) (db : List Task)
    (item : QueueItem) (cu : Nat)
    (hc : clientUpdatedAt item = some cu) (ht : item.data.title ≠ some "") :
    (processItem now2 (processItem now db item).1 item).1
      = (processItem now db item).1 := by
  cases hf : findTask db item.task_id with
  | none =>
    rw [processItem_absent now db item hf, hc]
    by_cases hup : item.operation = "create" ∨ item.operation = "update"
    · rw [applyOp_upsert_absent now db item (some cu) hup]
      simp only [Option.getD_some]
      have hf2 : findTask (db ++ [newTaskFromPayload item.task_id item.data cu])
          item.task_id = some (newTaskFromPayload item.task_id item.data cu) :=
        findTask_append_of_none db _ item.task_id hf rfl
      rw [processItem_no_conflict now2 _ item _ cu cu hf2 rfl hc (lt_irrefl cu), hc]
      rw [applyOp_upsert_existing now2 _ item _ (some cu) hup]
      simp only [Option.getD_some]
      have hself := updateById_self _ item.task_id _ hf2
      simp [updateTaskFromPayload_newTask item.task_id item.data cu ht, hself]
    · by_cases hdel : item.operation = "delete"
      · rw [applyOp_delete_absent now db item (some cu) hdel]
        simp only []
        rw [processItem_absent now2 db item hf, hc,
            applyOp_delete_absent now2 db item (some cu) hdel]
      · push_neg at hup
        rw [applyOp_unknown now db item none (some cu) hup.1 hup.2 hdel]
        simp only []
        rw [processItem_absent now2 db item hf, hc,
            applyOp_unknown now2 db item none (some cu) hup.1 hup.2 hdel]
  | some ex =>
    cases hu : ex.updated_at with
    | none =>
      rw [processItem_server_no_ts now db item ex hf hu]
      exact applyExisting_idempotent now now2 db item ex cu hc hf (Or.inl hu)
    | some su =>
      by_cases hlt : cu < su
      · rw [processItem_conflict now db item ex su cu hf hu hc hlt]
        simp only []
        rw [processItem_conflict now2 db item ex su cu hf hu hc hlt]
      · rw [processItem_no_conflict now db item ex su cu hf hu hc hlt]
        exact applyExisting_idempotent now now2 db item ex cu hc hf (Or.inr ⟨su, hu, hlt⟩)

/-! The claims. -/

/-- Claim C1 (code bug): enqueue_mutation (LocalQueue.add) never terminates.
For every task_id, operation, payload and current time, a call entered with
the queue lock free deadlocks before persisting anything: add acquires the
non-reentrant lock and then calls _save, which re-acquires it, so the call
never returns — contradicting the claim (and the spec contract) that it
returns void whenever storage writes succeed. -/
theorem enqueue_mutation_deadlocks (queue : List QueueItem) (task_id : String)
    (operation : String) (data : Payload) (now : Nat) :
    LocalQueue.add false queue task_id operation data now = none := rfl

/-- Claim C2 counterexample: with one queued item and a failing commit, the
summary reports failed_items = 1, not the zero failed items the claim
states. -/
theorem commit_failure_reports_batch_failed_cex :
    (process_sync_once 0 50 false [sampCreate10] []).summary.failed_items = 1 ∧
    (process_sync_once 0 50 false [sampCreate10] []).summary.failed_items ≠ 0 := by
  exact ⟨rfl, by decide⟩

/-- Claim C2 amended: if the commit at the end of a reconciliation run
fails, the run aborts entirely — nothing is removed from the queue, the
record store is unchanged, and the summary reports zero synced items; but
failed_items is reported as the whole batch size, not zero. -/
theorem commit_failure_aborts (now batchSize : Nat) (queue : List QueueItem)
    (db : List Task) :
    (process_sync_once now batchSize false queue db).queue = queue ∧
    (process_sync_once now batchSize false queue db).db = db ∧
    (process_sync_once now batchSize false queue db).summary.synced_items = 0 ∧
    (process_sync_once now batchSize false queue db).summary.failed_items =
      (queue.take batchSize).length := by
  by_cases h : (queue.take batchSize).isEmpty
  · have h' := List.isEmpty_iff.mp h
    simp [process_sync_once, h, h']
  · simp [process_sync_once, h]

/-- Claim C3 (code bug): before the deadlock, the loop records an
unknown-operation item that is not consumed by the conflict branch in the
failed list without touching its retry_count and leaves the store
unchanged; but the run then deadlocks inside sync_queue.remove_items and
never returns, so the summary and queue state the claim describes are never
produced, and retry_count is never incremented anywhere (the increment at
line 193 lives only in the exception handler). -/
theorem unknown_op_never_reported (now limit : Nat) (item : QueueItem)
    (db : List Task) (hl : 0 < limit)
    (h1 : item.operation ≠ "create") (h2 : item.operation ≠ "update")
    (h3 : item.operation ≠ "delete") (hnc : conflictCond db item = false) :
    runBatch now db [item] =
      { db := db, processed := [], failed := [item], conflicts := [] } ∧
    process_sync_once_run now limit true [item] db = none := by
  have hbatch : ([item] : List QueueItem).take limit = [item] :=
    List.take_of_length_le (by simpa using hl)
  have hpi := processItem_unknown now db item h1 h2 h3 hnc
  constructor
  · simp [runBatch, hpi]
  · exact process_run_hangs now limit [item] db (by simp [hbatch])

/-- Witness for unknown_op_never_reported on a concrete noop item. -/
theorem unknown_op_never_reported_witness :
    process_sync_once_run 0 50 true [sampUnknown] [] = none :=
  (unknown_op_never_reported 0 50 sampUnknown [] (by decide) (by decide) (by decide)
    (by decide) (by decide)).2

/-- Claim C4: a server record whose updated_at equals the client timestamp
is not a conflict — the client mutation is applied; and the conflict branch
is taken only when the server timestamp is strictly greater than the client
timestamp. -/
theorem tie_favors_client :
    (∀ now db item ex ts, findTask db item.task_id = some ex →
      ex.updated_at = some ts → clientUpdatedAt item = some ts →
      (item.operation = "create" ∨ item.operation = "update" ∨
       item.operation = "delete") →
      (processItem now db item).2 = Outcome.applied) ∧
    (∀ db item, conflictCond db item = true →
      ∃ ex su cu, findTask db item.task_id = some ex ∧ ex.updated_at = some su ∧
        clientUpdatedAt item = some cu ∧ cu < su) := by
  constructor
  · intro now db item ex ts hf hu hc hop
    rw [processItem_no_conflict now db item ex ts ts hf hu hc (lt_irrefl ts)]
    exact applyOp_applied now db item (some ex) (clientUpdatedAt item) hop
  · exact conflictCond_spec

/-- Witness for tie_favors_client: server and client both at timestamp 10. -/
theorem tie_favors_client_witness :
    (processItem 7 [sampServer10] sampCreate10).2 = Outcome.applied :=
  tie_favors_client.1 7 [sampServer10] sampCreate10 sampServer10 10 (by decide)
    (by decide) (by decide) (Or.inl (by decide))

/-- Claim C5 (code bug): when the server record is strictly newer, the loop
discards the mutation leaving the record store unchanged, reports a
conflict entry carrying task_id, operation, reason, server_updated_at and
client_updated_at, and marks the item processed; but the run then deadlocks
inside sync_queue.remove_items before persisting the removal or returning
the summary, so the conflict never durably consumes the item and no
synced count is ever reported. -/
theorem conflict_never_durably_consumed (now limit : Nat) (item : QueueItem)
    (db : List Task) (ex : Task) (su cu : Nat) (hl : 0 < limit)
    (hf : findTask db item.task_id = some ex) (hu : ex.updated_at = some su)
    (hc : clientUpdatedAt item = some cu) (hlt : cu < su) :
    (runBatch now db [item]).db = db ∧
    (runBatch now db [item]).processed = [item] ∧
    (runBatch now db [item]).conflicts =
      [{ task_id := item.task_id, operation := item.operation,
         reason := "server has newer data (LWW)",
         server_updated_at := su, client_updated_at := cu, timestamp := now }] ∧
    process_sync_once_run now limit true [item] db = none := by
  have hbatch : ([item] : List QueueItem).take limit = [item] :=
    List.take_of_length_le (by simpa using hl)
  have hpi := processItem_conflict now db item ex su cu hf hu hc hlt
  refine ⟨?_, ?_, ?_, process_run_hangs now limit [item] db (by simp [hbatch])⟩ <;>
    simp [runBatch, hpi]

/-- Witness for conflict_never_durably_consumed: server at 30 beats client
at 10 and the run never returns. -/
theorem conflict_never_durably_consumed_witness :
    process_sync_once_run 9 50 true [sampCreate10] [sampServer30] = none :=
  (conflict_never_durably_consumed 9 50 sampCreate10 [sampServer30] sampServer30 30 10
    (by decide) (by decide) (by decide) (by decide) (by decide)).2.2.2

/-- Claim C8: loading the queue at startup never raises; for every backing
file state other than a successfully parsed list — missing file, unreadable
or unparsable content, or content parsing to a non-list — the queue
initialises empty. -/
theorem load_failure_empty (fs : BackingStore)
    (h : ∀ items, fs ≠ BackingStore.parsedList items) :
    LocalQueue.load fs = [] := by
  cases fs with
  | missing => rfl
  | corrupt => rfl
  | parsedNonList => rfl
  | parsedList items => exact absurd rfl (h items)

/-- Witness for load_failure_empty at the corrupt-file state. -/
theorem load_failure_empty_witness : LocalQueue.load BackingStore.corrupt = [] :=
  load_failure_empty BackingStore.corrupt (fun _ h => BackingStore.noConfusion h)

/-- Claim C9: when the derived client timestamp is absent (payload without a
usable updated_at and missing or empty queued_at) the conflict comparison is
bypassed and the client mutation is applied, even against a server record
with a strictly newer updated_at; the same bypass occurs when the existing
record has no updated_at. -/
theorem missing_timestamp_bypass :
    (∀ now db item, clientUpdatedAt item = none →
      (item.operation = "create" ∨ item.operation = "update" ∨
       item.operation = "delete") →
      (processItem now db item).2 = Outcome.applied) ∧
    (∀ now db item ex, findTask db item.task_id = some ex →
      ex.updated_at = none →
      (item.operation = "create" ∨ item.operation = "update" ∨
       item.operation = "delete") →
      (processItem now db item).2 = Outcome.applied) := by
  constructor
  · intro now db item hc hop
    cases hf : findTask db item.task_id with
    | none =>
      rw [processItem_absent now db item hf]
      exact applyOp_applied _ _ _ _ _ hop
    | some ex =>
      rw [processItem_client_no_ts now db item ex hf hc]
      exact applyOp_applied _ _ _ _ _ hop
  · intro now db item ex hf hu hop
    rw [processItem_server_no_ts now db item ex hf hu]
    exact applyOp_applied _ _ _ _ _ hop

/-- Witness for missing_timestamp_bypass: an item with no timestamps is
applied over a server record carrying updated_at 30. -/
theorem missing_timestamp_bypass_witness :
    (processItem 99 [sampServer30] sampNoTimestamp).2 = Outcome.applied :=
  missing_timestamp_bypass.1 99 [sampServer30] sampNoTimestamp (by decide)
    (Or.inl (by decide))

/-- Claim C10 (code bug): the loop appends conflicted items to the
processed list exactly like applied ones, so for an all-conflict batch the
synced_items value that line 216 would return equals the batch size with no
failures; but every nonempty-batch run whose commit succeeds deadlocks
inside sync_queue.remove_items before reaching the return at line 215, so
the summary the claim describes is never returned. -/
theorem synced_summary_never_returned (now limit : Nat) (queue : List QueueItem)
    (db : List Task) (hne : ¬ (queue.take limit).isEmpty)
    (hall : ∀ item ∈ queue.take limit, conflictCond db item = true) :
    (runBatch now db (queue.take limit)).processed = queue.take limit ∧
    (runBatch now db (queue.take limit)).failed = [] ∧
    process_sync_once_run now limit true queue db = none := by
  have hrb := runBatch_all_conflicts now db (queue.take limit) hall
  exact ⟨hrb.2.1, hrb.2.2.1, process_run_hangs now limit queue db hne⟩

/-- Witness for synced_summary_never_returned: a one-item all-conflict
batch whose run never returns. -/
theorem synced_summary_never_returned_witness :
    process_sync_once_run 9 50 true [sampUpdate20] [sampServer30] = none :=
  (synced_summary_never_returned 9 50 [sampUpdate20] [sampServer30] (by decide)
    (by decide)).2.2

/-- Claim C7 counterexample: replaying a create whose payload title is the
empty string changes the record — the first application stores the
placeholder title "Untitled" (empty string is falsy in the create branch),
the replay runs through the update branch and overwrites it with "". -/
theorem replay_changes_record_cex :
    (process_sync_once 6 50 true [sampEmptyTitle]
        (process_sync_once 5 50 true [sampEmptyTitle] []).db).db ≠
      (process_sync_once 5 50 true [sampEmptyTitle] []).db := by
  decide

/-- Claim C7 amended: applying the same queue item a second time through the
reconciler yields the same final record state as the first application,
provided the item has a derivable client timestamp and its payload title is
not the empty string (an empty-string title is stored as "Untitled" on first
application and overwritten with "" on replay; an absent client timestamp
makes each application stamp a fresh wall-clock time). -/
theorem replay_idempotent (now now2 limit : Nat) (item : QueueItem)
    (db : List Task) (cu : Nat) (hl : 0 < limit)
    (hc : clientUpdatedAt item = some cu) (ht : item.data.title ≠ some "") :
    (process_sync_once now2 limit true [item]
        (process_sync_once now limit true [item] db).db).db =
      (process_sync_once now limit true [item] db).db := by
  have hbatch : ([item] : List QueueItem).take limit = [item] :=
    List.take_of_length_le (by simpa using hl)
  have hdb : ∀ (n : Nat) (d : List Task),
      (process_sync_once n limit true [item] d).db = (processItem n d item).1 := by
    intro n d
    rw [process_db_eq_runBatch n limit [item] d (by simp [hbatch]), hbatch,
        runBatch_db_cons, runBatch_db_nil]
  simp only [hdb]
  exact processItem_idempotent now now2 db item cu hc ht

/-- Witness for replay_idempotent: replaying a concrete create leaves the
record store of the first run unchanged. -/
theorem replay_idempotent_witness :
    (process_sync_once 1 1 true [sampCreate10]
        (process_sync_once 0 1 true [sampCreate10] []).db).db =
      (process_sync_once 0 1 true [sampCreate10] []).db :=
  replay_idempotent 0 1 1 sampCreate10 [] 10 (by decide) (by decide) (by decide)

end TaskSync
